import Mathlib

/-!
Verification of the coordination core of a voice-triggered scene-description
assistant (src/main.py). The embedding models the pure spatial classifier
`get_spatial_description`, the queue producer `speak` together with the raw
queue insertions, the capture-cycle summary construction, the command
listener's trigger step, the capture-signal consumption, and the
text-to-speech consumer's drain loop. Machine reals of the source are
modelled as rationals; the Python queue is a FIFO list whose items are
`Option String` (the `none` item is the shutdown sentinel).
-/

namespace Spec2Proof

/-- Detection box in pixel coordinates, as unpacked on line 110 of
src/main.py (`x1, y1, x2, y2 = box`). -/
structure Box where
  x1 : ℚ
  y1 : ℚ
  x2 : ℚ
  y2 : ℚ
deriving DecidableEq, Repr

/-- Horizontal band of `get_spatial_description` (src/main.py lines 111-119):
`center_x = (x1 + x2) / 2`; `center_x < frame_width / 3` gives "on the left",
`center_x > 2 * frame_width / 3` gives "on the right", otherwise
"in the center". -/
def horizontal_pos (box : Box) (frame_width : ℚ) : String :=
  let center_x := (box.x1 + box.x2) / 2
  if center_x < frame_width / 3 then "on the left"
  else if center_x > 2 * frame_width / 3 then "on the right"
  else "in the center"

/-- Proximity band of `get_spatial_description` (src/main.py lines 121-131):
`ratio = box_area / frame_area`; `ratio > 0.15` gives "near",
`ratio < 0.05` gives "far", otherwise "at a medium distance". -/
def proximity_of (box : Box) (frame_width frame_height : ℚ) : String :=
  let frame_area := frame_width * frame_height
  let box_area := (box.x2 - box.x1) * (box.y2 - box.y1)
  let ratio := box_area / frame_area
  if ratio > 15 / 100 then "near"
  else if ratio < 5 / 100 then "far"
  else "at a medium distance"

/-- The full classifier `get_spatial_description` (src/main.py lines 109-133):
returns the formatted string `f"{h_pos}, {proximity}"`. -/
def get_spatial_description (box : Box) (frame_width frame_height : ℚ) : String :=
  horizontal_pos box frame_width ++ ", " ++ proximity_of box frame_width frame_height

/-- Center x of a box, as computed on line 111 of src/main.py. -/
def center_x (box : Box) : ℚ := (box.x1 + box.x2) / 2

/-- Box area as computed on line 123 of src/main.py. -/
def box_area (box : Box) : ℚ := (box.x2 - box.x1) * (box.y2 - box.y1)

/-- The shared speech queue: a FIFO list of items; `none` is the shutdown
sentinel put on line 230 of src/main.py, every spoken text is `some text`. -/
abbrev SpeechQueue := List (Option String)

/-- Producer helper `speak` (src/main.py lines 48-51): enqueue the text only
when the current queue depth is below 2, otherwise drop it silently. -/
def speak (q : SpeechQueue) (text : String) : SpeechQueue :=
  if q.length < 2 then q ++ [some text] else q

/-- Raw `speech_queue.put` (used on lines 55 and 230 of src/main.py): an
unconditional enqueue that bypasses the depth check of `speak`. -/
def raw_put (q : SpeechQueue) (item : Option String) : SpeechQueue :=
  q ++ [item]

/-- The startup message put directly on the queue on line 55 of src/main.py. -/
def startup_message : String := "System online. Waiting for command."

/-- Fixed utterance spoken when a capture finds no detections
(src/main.py line 204). -/
def no_objects_message : String :=
  "I analyzed the scene but did not detect any clear objects."

/-- Summary caption for a non-empty detection list (src/main.py lines
197-200): `"I found {N} objects. "` followed by the first (at most 3)
per-object phrases joined by `". "`. -/
def summary_caption (detections : List String) : String :=
  "I found " ++ toString detections.length ++ " objects. "
    ++ String.intercalate ". " (detections.take 3)

/-- Utterance produced by one capture cycle (src/main.py lines 193-204):
the summary caption when detections survive the confidence filter, the fixed
no-objects message otherwise. -/
def cycle_utterance (detections : List String) : String :=
  if detections.isEmpty then no_objects_message else summary_caption detections

/-- Capture-cycle update of the queue and of `last_analysis_text`
(src/main.py lines 193-205): offer the cycle's utterance through `speak`
and assign the display string — the full caption when detections exist,
the literal "No objects found." otherwise. -/
def capture_cycle_update (q : SpeechQueue) (detections : List String) :
    SpeechQueue × String :=
  if detections.isEmpty then
    (speak q no_objects_message, "No objects found.")
  else
    (speak q (summary_caption detections), summary_caption detections)

/-- Substring containment on character lists, the semantics of Python's
`needle in text`: some suffix of the text starts with the needle. -/
def contains_sub (pat : List Char) : List Char → Bool
  | [] => pat.isEmpty
  | c :: rest => pat.isPrefixOf (c :: rest) || contains_sub pat rest

/-- Trigger predicate of the command listener (src/main.py lines 80-83): the
decoded text is lowercased and the trigger fires when it contains "yes",
"capture" or "scan" as a substring. -/
def trigger_match (text : String) : Bool :=
  let t := text.toList.map Char.toLower
  contains_sub "yes".toList t || contains_sub "capture".toList t
    || contains_sub "scan".toList t

/-- State touched by the command listener on a recognized phrase: the shared
capture flag and the speech queue. -/
structure ListenerState where
  capture_requested : Bool
  queue : SpeechQueue
deriving DecidableEq, Repr

/-- One classification step of `command_listener` (src/main.py lines 80-86):
on a trigger match set `capture_requested` and offer the acknowledgement
"Okay, analyzing scene." through `speak`; otherwise leave the state alone. -/
def command_listener_step (s : ListenerState) (text : String) : ListenerState :=
  if trigger_match text then
    { capture_requested := true, queue := speak s.queue "Okay, analyzing scene." }
  else s

/-- Setting the capture signal (src/main.py lines 85 and 223): the writers
assign `capture_requested = True` unconditionally. -/
def set_signal (_ : Bool) : Bool := true

/-- Signal consumption at the top of a capture-loop iteration (src/main.py
lines 170-173): when the flag is set it is cleared and exactly one detection
cycle runs; otherwise no detection runs. Returns the new flag value and the
number of detection cycles executed this iteration. -/
def loop_consume (capture_requested : Bool) : Bool × Nat :=
  if capture_requested then (false, 1) else (false, 0)

/-- Drain loop of `TTSThread.run` (src/main.py lines 20-38): repeatedly take
the next queue item; a `none` sentinel breaks the loop, a `some text` item is
synthesized and the loop continues. Returns the texts processed, in order,
before the worker exits. -/
def tts_run : SpeechQueue → List String
  | [] => []
  | none :: _ => []
  | some t :: rest => t :: tts_run rest

/-- C1: for every box and positive frame width, `get_spatial_description`
classifies the horizontal position from the box center x by thirds of the
frame width: center x in `[0, W/3)` yields "on the left", center x strictly
greater than `2W/3` yields "on the right", and everything else — including
center x exactly `W/3` or exactly `2W/3` — yields "in the center". -/
theorem C1_horizontal_thirds (box : Box) (W H : ℚ) (hW : 0 < W) :
    (0 ≤ center_x box ∧ center_x box < W / 3 →
      get_spatial_description box W H = "on the left" ++ ", " ++ proximity_of box W H)
    ∧ (center_x box > 2 * W / 3 →
      get_spatial_description box W H = "on the right" ++ ", " ++ proximity_of box W H)
    ∧ (¬ center_x box < W / 3 ∧ ¬ center_x box > 2 * W / 3 →
      get_spatial_description box W H = "in the center" ++ ", " ++ proximity_of box W H)
    ∧ (center_x box = W / 3 ∨ center_x box = 2 * W / 3 →
      get_spatial_description box W H = "in the center" ++ ", " ++ proximity_of box W H) := by
  unfold get_spatial_description horizontal_pos center_x
  refine ⟨fun h => ?_, fun h => ?_, fun h => ?_, fun h => ?_⟩
  · rw [if_pos h.2]
  · rw [if_neg (by push_neg; linarith), if_pos h]
  · rw [if_neg h.1, if_neg h.2]
  · rcases h with h | h
    · rw [if_neg (by rw [h]; exact lt_irrefl _), if_neg (by rw [h]; push_neg; linarith)]
    · rw [if_neg (by rw [h]; push_neg; linarith), if_neg (by rw [h]; exact lt_irrefl _)]

/-- C1 witness: concrete boxes in a 300 by 100 frame exercising every band,
the two boundary center values 100 = W/3 and 200 = 2W/3 included. -/
theorem C1_horizontal_thirds_witness :
    get_spatial_description ⟨0, 0, 99, 10⟩ 300 100
      = "on the left" ++ ", " ++ proximity_of ⟨0, 0, 99, 10⟩ 300 100
    ∧ get_spatial_description ⟨200, 0, 202, 10⟩ 300 100
      = "on the right" ++ ", " ++ proximity_of ⟨200, 0, 202, 10⟩ 300 100
    ∧ get_spatial_description ⟨0, 0, 200, 10⟩ 300 100
      = "in the center" ++ ", " ++ proximity_of ⟨0, 0, 200, 10⟩ 300 100
    ∧ get_spatial_description ⟨199, 0, 201, 10⟩ 300 100
      = "in the center" ++ ", " ++ proximity_of ⟨199, 0, 201, 10⟩ 300 100 :=
  ⟨(C1_horizontal_thirds ⟨0, 0, 99, 10⟩ 300 100 (by norm_num)).1
      (by constructor <;> norm_num [center_x]),
   (C1_horizontal_thirds ⟨200, 0, 202, 10⟩ 300 100 (by norm_num)).2.1
      (by norm_num [center_x]),
   (C1_horizontal_thirds ⟨0, 0, 200, 10⟩ 300 100 (by norm_num)).2.2.2
      (Or.inl (by norm_num [center_x])),
   (C1_horizontal_thirds ⟨199, 0, 201, 10⟩ 300 100 (by norm_num)).2.2.2
      (Or.inr (by norm_num [center_x]))⟩

/-- C2: for every box and positive frame dimensions,
`get_spatial_description` classifies proximity from
`ratio = boxArea / frameArea` with strict thresholds: ratio above 0.15 yields
"near", ratio below 0.05 yields "far", and everything else — ratio exactly
0.05 and exactly 0.15 included — yields "at a medium distance". -/
theorem C2_proximity_thresholds (box : Box) (W H : ℚ) (_hW : 0 < W) (_hH : 0 < H) :
    (box_area box / (W * H) > 15 / 100 →
      get_spatial_description box W H = horizontal_pos box W ++ ", " ++ "near")
    ∧ (box_area box / (W * H) < 5 / 100 →
      get_spatial_description box W H = horizontal_pos box W ++ ", " ++ "far")
    ∧ (¬ box_area box / (W * H) > 15 / 100 ∧ ¬ box_area box / (W * H) < 5 / 100 →
      get_spatial_description box W H = horizontal_pos box W ++ ", " ++ "at a medium distance")
    ∧ (box_area box / (W * H) = 5 / 100 ∨ box_area box / (W * H) = 15 / 100 →
      get_spatial_description box W H = horizontal_pos box W ++ ", " ++ "at a medium distance") := by
  unfold get_spatial_description proximity_of box_area
  refine ⟨fun h => ?_, fun h => ?_, fun h => ?_, fun h => ?_⟩
  · rw [if_pos h]
  · rw [if_neg (by push_neg; linarith), if_pos h]
  · rw [if_neg h.1, if_neg h.2]
  · rcases h with h | h
    · rw [if_neg (by rw [h]; push_neg; linarith), if_neg (by rw [h]; exact lt_irrefl _)]
    · rw [if_neg (by rw [h]; exact lt_irrefl _), if_neg (by rw [h]; push_neg; linarith)]

/-- C2 witness: boxes in a 100 by 2 frame of area 200 realizing ratios 0.2
(near), 0.04 (far), 0.05 and 0.15 (both exactly on a threshold, medium). -/
theorem C2_proximity_thresholds_witness :
    get_spatial_description ⟨0, 0, 40, 1⟩ 100 2
      = horizontal_pos ⟨0, 0, 40, 1⟩ 100 ++ ", " ++ "near"
    ∧ get_spatial_description ⟨0, 0, 8, 1⟩ 100 2
      = horizontal_pos ⟨0, 0, 8, 1⟩ 100 ++ ", " ++ "far"
    ∧ get_spatial_description ⟨0, 0, 10, 1⟩ 100 2
      = horizontal_pos ⟨0, 0, 10, 1⟩ 100 ++ ", " ++ "at a medium distance"
    ∧ get_spatial_description ⟨0, 0, 30, 1⟩ 100 2
      = horizontal_pos ⟨0, 0, 30, 1⟩ 100 ++ ", " ++ "at a medium distance" :=
  ⟨(C2_proximity_thresholds ⟨0, 0, 40, 1⟩ 100 2 (by norm_num) (by norm_num)).1
      (by norm_num [box_area]),
   (C2_proximity_thresholds ⟨0, 0, 8, 1⟩ 100 2 (by norm_num) (by norm_num)).2.1
      (by norm_num [box_area]),
   (C2_proximity_thresholds ⟨0, 0, 10, 1⟩ 100 2 (by norm_num) (by norm_num)).2.2.2
      (Or.inl (by norm_num [box_area])),
   (C2_proximity_thresholds ⟨0, 0, 30, 1⟩ 100 2 (by norm_num) (by norm_num)).2.2.2
      (Or.inr (by norm_num [box_area]))⟩

/-- C3: `get_spatial_description` is a total function: on every input it
returns a phrase made of one of the three horizontal bands and one of the
three proximity bands, and for positive frame dimensions a degenerate box of
zero area gets ratio 0 and is classified "far". -/
theorem C3_total_degenerate_far (box : Box) (W H : ℚ) :
    get_spatial_description box W H
      = horizontal_pos box W ++ ", " ++ proximity_of box W H
    ∧ (horizontal_pos box W = "on the left" ∨ horizontal_pos box W = "on the right"
        ∨ horizontal_pos box W = "in the center")
    ∧ (proximity_of box W H = "near" ∨ proximity_of box W H = "far"
        ∨ proximity_of box W H = "at a medium distance")
    ∧ (0 < W → 0 < H → box_area box = 0 → proximity_of box W H = "far") := by
  refine ⟨rfl, ?_, ?_, fun hW hH hz => ?_⟩
  · simp only [horizontal_pos]
    split_ifs <;> tauto
  · simp only [proximity_of]
    split_ifs <;> tauto
  · unfold box_area at hz
    simp only [proximity_of, hz, zero_div]
    norm_num

/-- C3 witness: a zero-width box inside a positive 100 by 100 frame is
classified "far". -/
theorem C3_total_degenerate_far_witness :
    proximity_of ⟨7, 0, 7, 50⟩ 100 100 = "far" :=
  (C3_total_degenerate_far ⟨7, 0, 7, 50⟩ 100 100).2.2.2
    (by norm_num) (by norm_num) (by norm_num [box_area])

/-- C4: when the queue already holds at least 2 unconsumed items `speak`
silently discards the new utterance, leaving the queue exactly as it was —
in particular a depth-2 queue keeps exactly its 2 items — and when the depth
is below 2 the utterance is accepted at the tail (FIFO order); `speak` is a
total function, so the producer is never blocked. -/
theorem C4_speak_drop_policy (q : SpeechQueue) (t : String) :
    (2 ≤ q.length → speak q t = q)
    ∧ (q.length < 2 → speak q t = q ++ [some t])
    ∧ (q.length = 2 → speak q t = q ∧ (speak q t).length = 2) := by
  unfold speak
  refine ⟨fun h => ?_, fun h => ?_, fun h => ?_⟩
  · rw [if_neg (by omega)]
  · rw [if_pos h]
  · rw [if_neg (by omega)]
    exact ⟨rfl, h⟩

/-- C4 witness: offering a third utterance to a queue of 2 leaves exactly
those 2 items, while a queue of 1 accepts the new utterance at the tail. -/
theorem C4_speak_drop_policy_witness :
    speak [some "a", some "b"] "c" = [some "a", some "b"]
    ∧ (speak [some "a", some "b"] "c").length = 2
    ∧ speak [some "a"] "c" = [some "a", some "c"] :=
  ⟨((C4_speak_drop_policy [some "a", some "b"] "c").2.2 (by decide)).1,
   ((C4_speak_drop_policy [some "a", some "b"] "c").2.2 (by decide)).2,
   (C4_speak_drop_policy [some "a"] "c").2.1 (by decide)⟩

/-- C5: the capture-cycle utterance is the fixed no-objects message for an
empty detection list, and for N at least 1 detections it is
`"I found \x7bN\x7d objects. "` followed by the first at most 3 per-object
phrases joined by `". "`; with 5 detections exactly 3 phrases are listed. -/
theorem C5_summary_truncation (d : List String) :
    (d = [] → cycle_utterance d = no_objects_message)
    ∧ (d ≠ [] → cycle_utterance d =
        "I found " ++ toString d.length ++ " objects. "
          ++ String.intercalate ". " (d.take 3))
    ∧ (d.length = 5 → toString d.length = "5" ∧ (d.take 3).length = 3) := by
  refine ⟨fun h => ?_, fun h => ?_, fun h => ?_⟩
  · rw [h]; rfl
  · unfold cycle_utterance
    rw [if_neg (by simpa [List.isEmpty_iff] using h)]
    rfl
  · rw [h]
    refine ⟨rfl, ?_⟩
    rw [List.length_take, h]
    rfl

/-- C5 witness: five detections above threshold produce the caption
"I found 5 objects. " followed by exactly the first 3 phrases. -/
theorem C5_summary_truncation_witness :
    cycle_utterance ["p1", "p2", "p3", "p4", "p5"] =
      "I found " ++ toString (["p1", "p2", "p3", "p4", "p5"] : List String).length
        ++ " objects. "
        ++ String.intercalate ". " ((["p1", "p2", "p3", "p4", "p5"] : List String).take 3)
    ∧ toString (["p1", "p2", "p3", "p4", "p5"] : List String).length = "5"
    ∧ ((["p1", "p2", "p3", "p4", "p5"] : List String).take 3).length = 3
    ∧ cycle_utterance [] = no_objects_message :=
  ⟨(C5_summary_truncation ["p1", "p2", "p3", "p4", "p5"]).2.1 (by decide),
   ((C5_summary_truncation ["p1", "p2", "p3", "p4", "p5"]).2.2 (by decide)).1,
   ((C5_summary_truncation ["p1", "p2", "p3", "p4", "p5"]).2.2 (by decide)).2,
   (C5_summary_truncation []).1 rfl⟩

/-- C6 counterexample: in a zero-detection capture cycle the utterance
offered to the queue is the fixed "I analyzed the scene but did not detect
any clear objects." message, while `last_analysis_text` is set to
"No objects found." — the two strings differ, refuting the claim that
LastAnalysisText always equals the offered utterance. -/
theorem C6_counterexample :
    ¬ (capture_cycle_update [] []).2 = cycle_utterance [] := by decide

/-- C6 amended: the queue is always offered the cycle utterance through
`speak`; with at least one detection LastAnalysisText equals that offered
summary utterance, but with zero detections LastAnalysisText is set to the
distinct fixed string "No objects found." while the queue is offered the
fixed no-objects utterance. -/
theorem C6_last_analysis (q : SpeechQueue) (d : List String) :
    (capture_cycle_update q d).1 = speak q (cycle_utterance d)
    ∧ (d ≠ [] → (capture_cycle_update q d).2 = cycle_utterance d)
    ∧ (d = [] → (capture_cycle_update q d).2 = "No objects found."
        ∧ cycle_utterance d = no_objects_message) := by
  unfold capture_cycle_update cycle_utterance
  refine ⟨?_, fun h => ?_, fun h => ?_⟩
  · by_cases hd : d.isEmpty
    · rw [if_pos hd, if_pos hd]
    · rw [if_neg hd, if_neg hd]
  · rw [if_neg (by simpa [List.isEmpty_iff] using h),
      if_neg (by simpa [List.isEmpty_iff] using h)]
  · subst h
    exact ⟨rfl, rfl⟩

/-- C6 amendment witness: a cycle with one detection phrase stores the
offered caption in LastAnalysisText, and the zero-detection cycle stores
"No objects found." while offering the no-objects message. -/
theorem C6_last_analysis_witness :
    (capture_cycle_update [] ["cup on the left, far"]).2
      = cycle_utterance ["cup on the left, far"]
    ∧ (capture_cycle_update [] []).2 = "No objects found."
    ∧ cycle_utterance [] = no_objects_message :=
  ⟨(C6_last_analysis [] ["cup on the left, far"]).2.1 (by decide),
   ((C6_last_analysis [] []).2.2 rfl).1,
   ((C6_last_analysis [] []).2.2 rfl).2⟩

/-- C7: the listener step triggers exactly when the lowercased decoded text
contains "yes", "capture" or "scan" as a substring; on a match it sets the
capture flag to true and offers the acknowledgement "Okay, analyzing scene."
through `speak`, and on a non-match it changes nothing. -/
theorem C7_trigger_words (s : ListenerState) (text : String) :
    trigger_match text
      = (contains_sub "yes".toList (text.toList.map Char.toLower)
          || contains_sub "capture".toList (text.toList.map Char.toLower)
          || contains_sub "scan".toList (text.toList.map Char.toLower))
    ∧ (trigger_match text = true →
        command_listener_step s text =
          { capture_requested := true,
            queue := speak s.queue "Okay, analyzing scene." })
    ∧ (trigger_match text = false → command_listener_step s text = s) := by
  refine ⟨rfl, fun h => ?_, fun h => ?_⟩
  · unfold command_listener_step
    rw [if_pos h]
  · unfold command_listener_step
    rw [h]
    simp

/-- C7 witness: the phrase "please SCAN the room now" matches "scan"
case-insensitively, setting the flag and enqueuing the acknowledgement,
while "hello there" matches nothing and leaves the state unchanged. -/
theorem C7_trigger_words_witness :
    command_listener_step ⟨false, []⟩ "please SCAN the room now"
      = ⟨true, [some "Okay, analyzing scene."]⟩
    ∧ command_listener_step ⟨false, []⟩ "hello there" = ⟨false, []⟩ :=
  ⟨by
    rw [(C7_trigger_words ⟨false, []⟩ "please SCAN the room now").2.1 (by decide)]
    decide,
   (C7_trigger_words ⟨false, []⟩ "hello there").2.2 (by decide)⟩

/-- C8: setting the capture signal is idempotent — setting it any number
n of times (n at least 1) before the loop consumes it leaves the same flag
as setting it once — and the next loop iteration clears the signal while
running exactly one detection cycle; the iteration after that runs none
until the signal is set again. -/
theorem C8_signal_idempotent (s : Bool) (n : Nat) (hn : 1 ≤ n) :
    set_signal (set_signal s) = set_signal s
    ∧ set_signal^[n] s = set_signal s
    ∧ loop_consume (set_signal^[n] s) = (false, 1)
    ∧ loop_consume (loop_consume (set_signal^[n] s)).1 = (false, 0) := by
  obtain ⟨m, rfl⟩ : ∃ m, n = m + 1 := ⟨n - 1, by omega⟩
  rw [Function.iterate_succ_apply']
  exact ⟨rfl, rfl, rfl, rfl⟩

/-- C8 witness: setting the signal twice from a clear state yields one
detection cycle on the next iteration and none on the one after. -/
theorem C8_signal_idempotent_witness :
    set_signal^[2] false = set_signal false
    ∧ loop_consume (set_signal^[2] false) = (false, 1)
    ∧ loop_consume (loop_consume (set_signal^[2] false)).1 = (false, 0) :=
  ⟨(C8_signal_idempotent false 2 (by decide)).2.1,
   (C8_signal_idempotent false 2 (by decide)).2.2.1,
   (C8_signal_idempotent false 2 (by decide)).2.2.2⟩

/-- C9: the shutdown sentinel `none` makes the synthesis worker terminate
only after draining: whatever utterances are pending ahead of the sentinel
are all processed, in FIFO order, before the worker exits; in particular a
single pending utterance is processed before the join returns. -/
theorem C9_shutdown_drain (pending : List String) (rest : SpeechQueue) (u : String) :
    tts_run (pending.map some ++ none :: rest) = pending
    ∧ tts_run (raw_put [some u] none) = [u] := by
  constructor
  · induction pending with
    | nil => rfl
    | cons x xs ih =>
        simpa [tts_run] using ih
  · rfl

/-- C10: the startup message on line 55 and the shutdown sentinel on line
230 of src/main.py are enqueued with a raw put that bypasses the depth check
in `speak`: raw insertions always grow the queue by one item even when 2 are
already queued — so the queue depth can exceed 2 — while `speak` would have
dropped a text at that depth. -/
theorem C10_raw_put_bypasses (q : SpeechQueue) (item : Option String) (t : String) :
    raw_put q item = q ++ [item]
    ∧ (raw_put q item).length = q.length + 1
    ∧ (2 ≤ q.length → speak q t = q ∧ 2 < (raw_put q item).length) := by
  refine ⟨rfl, List.length_append .., fun h => ⟨?_, ?_⟩⟩
  · unfold speak
    rw [if_neg (by omega)]
  · rw [raw_put, List.length_append]
    simp only [List.length_cons, List.length_nil]
    omega

/-- C10 witness: on a queue already holding 2 items, a raw put of the
startup message and a raw put of the sentinel are both accepted, raising
the depth to 3, while `speak` drops a new text at that depth. -/
theorem C10_raw_put_bypasses_witness :
    speak [some "a", some "b"] "c" = [some "a", some "b"]
    ∧ 2 < (raw_put [some "a", some "b"] (some startup_message)).length
    ∧ 2 < (raw_put [some "a", some "b"] none).length :=
  ⟨((C10_raw_put_bypasses [some "a", some "b"] (some startup_message) "c").2.2
      (by decide)).1,
   ((C10_raw_put_bypasses [some "a", some "b"] (some startup_message) "c").2.2
      (by decide)).2,
   ((C10_raw_put_bypasses [some "a", some "b"] none "c").2.2 (by decide)).2⟩

end Spec2Proof




